import Mathlib

/-!
Verification development for the CCSDS-Router repository.

The Rust sources under `src/` are shallowly embedded below:

* wall-clock instants (`SystemTime`) and durations (`Duration`) are modelled
  as rational numbers of seconds (`ℚ`); `Duration` values produced by the
  code are non-negative by construction, and the fallible `SystemTime`
  operations (`duration_since`, `elapsed`) are modelled with `Except`, a
  panicking `unwrap` becoming an `Except.error` result;
* the `f32` field `subsecond_resolution` is modelled as an exact rational;
  every concrete input probed below uses dyadic values on which the `f32`
  arithmetic of the source is exact;
* byte buffers are `List Nat` (each entry a byte value);
* the processing thread (`src/processing.rs`) is modelled function by
  function: `decode_timestamp`, `determine_timeout`, the per-packet output
  fan-out of `process_thread`, the packet-message dispatch of its
  Processing state, and the message trace emitted by `input_stream_thread`.
-/

namespace CcsdsRouter

/-! ## Time model and `SystemTime` operations -/

/-- Rust `SystemTime::duration_since`: `t.duration_since earlier` is `Ok`
with the difference when `earlier <= t`, and `Err` otherwise
(the clock appears to have gone backwards). -/
def duration_since (t earlier : ℚ) : Except Unit ℚ :=
  if earlier ≤ t then Except.ok (t - earlier) else Except.error ()

/-- Rust `SystemTime::elapsed`: `elapsed t now` is `now.duration_since(t)`. -/
def elapsed (t now : ℚ) : Except Unit ℚ :=
  duration_since now t

/-- Rust `Result::unwrap_or` specialised to durations. -/
def unwrap_or (d : ℚ) : Except Unit ℚ → ℚ
  | Except.ok v => v
  | Except.error _ => d

/-- Rust `Duration::checked_sub`: `some (a - b)` when `b ≤ a`, else `none`. -/
def checked_sub (a b : ℚ) : Option ℚ :=
  if b ≤ a then some (a - b) else none

/-- Truncation toward zero, as performed by Rust `f32::trunc` and by an
`as u64` cast of a non-negative float. -/
def rust_trunc (q : ℚ) : ℤ :=
  if 0 ≤ q then ⌊q⌋ else ⌈q⌉

/-- Rust `f32::fract`: the value minus its truncation toward zero. -/
def rust_fract (q : ℚ) : ℚ :=
  q - rust_trunc q

/-- A Rust `value as u64` cast of a float: truncate toward zero and clamp
below at zero (the source only reaches this with non-negative values). -/
def u64_of_float (q : ℚ) : ℕ :=
  (rust_trunc q).toNat

/-- Rust `Duration::from_nanos`, as rational seconds. -/
def duration_from_nanos (n : ℕ) : ℚ :=
  (n : ℚ) / 1000000000

/-! ## Data model (`src/types.rs` and `src/processing.rs`) -/

/-- Field width of a timestamp component (`src/types.rs`, `TimeSize`). -/
inductive TimeSize
  | ZeroBytes
  | OneByte
  | TwoBytes
  | FourBytes
deriving DecidableEq

/-- Translation of `TimeSize::to_num_bytes` (`src/types.rs` lines 191-198). -/
def TimeSize.to_num_bytes : TimeSize → ℕ
  | TimeSize.ZeroBytes => 0
  | TimeSize.OneByte => 1
  | TimeSize.TwoBytes => 2
  | TimeSize.FourBytes => 4

/-- Translation of `TimestampDef` (`src/types.rs` lines 218-239).  The source
field `offset: i32` is cast with `as usize` before use; it is modelled as a
natural number (all claims concern non-negative offsets).  The `f32` field
`subsecond_resolution` is modelled as an exact rational. -/
structure TimestampDef where
  offset : ℕ
  num_bytes_seconds : TimeSize
  num_bytes_subseconds : TimeSize
  subsecond_resolution : ℚ
  is_little_endian : Bool
deriving DecidableEq

/-- Translation of `TimestampSetting` (`src/types.rs` lines 247-264), with
`Duration` arguments as rational seconds. -/
inductive TimestampSetting
  | Asap
  | Replay
  | Delay (d : ℚ)
  | Throttle (d : ℚ)
deriving DecidableEq

/-- The primary-header fields that `process_thread` actually reads
(`header.control.apid()` and `header.sequence.sequence_count()`). -/
structure CcsdsPrimaryHeader where
  apid : ℕ
  sequence_count : ℕ
deriving DecidableEq

/-- Translation of `Packet` (`src/processing.rs` lines 39-42). -/
structure Packet where
  header : CcsdsPrimaryHeader
  bytes : List ℕ
deriving DecidableEq

/-- Translation of `TimeState` (`src/processing.rs` lines 30-35).
`system_to_packet_time` is the replay anchor. -/
structure TimeState where
  timestamp_setting : TimestampSetting
  timestamp_def : TimestampDef
  system_to_packet_time : Option ℚ
  last_send_time : ℚ
deriving DecidableEq

/-! ## `decode_timestamp` (`src/processing.rs` lines 134-204) -/

/-- `CCSDS_PRI_HEADER_SIZE_BYTES` from the `ccsds_primary_header` crate. -/
def CCSDS_PRI_HEADER_SIZE_BYTES : ℕ := 6

/-- Cursor read of one byte (`bytes::Buf::get_u8`): the byte at `pos`. -/
def get_u8 (data : List ℕ) (pos : ℕ) : ℕ :=
  data.getD pos 0

/-- Cursor read of a big-endian `u16` (`get_u16_be`). -/
def get_u16_be (data : List ℕ) (pos : ℕ) : ℕ :=
  data.getD pos 0 * 256 + data.getD (pos + 1) 0

/-- Cursor read of a little-endian `u16` (`get_u16_le`). -/
def get_u16_le (data : List ℕ) (pos : ℕ) : ℕ :=
  data.getD (pos + 1) 0 * 256 + data.getD pos 0

/-- Cursor read of a big-endian `u32` (`get_u32_be`). -/
def get_u32_be (data : List ℕ) (pos : ℕ) : ℕ :=
  data.getD pos 0 * 16777216 + data.getD (pos + 1) 0 * 65536 +
    data.getD (pos + 2) 0 * 256 + data.getD (pos + 3) 0

/-- Cursor read of a little-endian `u32` (`get_u32_le`). -/
def get_u32_le (data : List ℕ) (pos : ℕ) : ℕ :=
  data.getD (pos + 3) 0 * 16777216 + data.getD (pos + 2) 0 * 65536 +
    data.getD (pos + 1) 0 * 256 + data.getD pos 0

/-- One field read of `decode_timestamp`: the source performs the same
`match` twice (lines 155-175 for seconds, 177-197 for subseconds), reading
from a cursor over the timestamp slice; `pos` is the cursor position.  A
one-byte read uses `get_u8` and ignores endianness, exactly as the source. -/
def cursor_read (data : List ℕ) (pos : ℕ) (little : Bool) : TimeSize → ℕ
  | TimeSize.ZeroBytes => 0
  | TimeSize.OneByte => get_u8 data pos
  | TimeSize.TwoBytes => if little then get_u16_le data pos else get_u16_be data pos
  | TimeSize.FourBytes => if little then get_u32_le data pos else get_u32_be data pos

/-- Translation of `decode_timestamp` (`src/processing.rs` lines 134-204).
The source slices `bytes[time_start_byte..last_byte_offset]` and reads the
seconds field then the subseconds field through a cursor; the final duration
is `from_secs(num_secs) + from_nanos((1e9 * subseconds.fract()) as u64)`
where `subseconds = num_subsecs as f32 * subsecond_resolution`. -/
def decode_timestamp (bytes : List ℕ) (td : TimestampDef) : ℚ :=
  let time_start_byte := CCSDS_PRI_HEADER_SIZE_BYTES + td.offset
  let time_length_bytes := td.num_bytes_seconds.to_num_bytes + td.num_bytes_subseconds.to_num_bytes
  let last_byte_offset := time_start_byte + time_length_bytes
  if bytes.length < last_byte_offset then 0
  else
    let timestamp_slice := (bytes.drop time_start_byte).take time_length_bytes
    let num_secs := cursor_read timestamp_slice 0 td.is_little_endian td.num_bytes_seconds
    let num_subsecs := cursor_read timestamp_slice td.num_bytes_seconds.to_num_bytes
        td.is_little_endian td.num_bytes_subseconds
    let subseconds : ℚ := (num_subsecs : ℚ) * td.subsecond_resolution
    (num_secs : ℚ) + duration_from_nanos (u64_of_float (1000000000 * rust_fract subseconds))

/-! ## `determine_timeout` (`src/processing.rs` lines 207-258) -/

/-- Translation of `determine_timeout` (`src/processing.rs` lines 207-258).
`now` is the value of `SystemTime::now()` during the call.  The function
returns the computed timeout together with the (possibly updated) time
state; a panic of the source (the `unwrap` on `elapsed()` in the Throttle
arm, line 249) is modelled as `Except.error`. -/
def determine_timeout (now : ℚ) (ts : TimeState) (p : Packet) :
    Except String (ℚ × TimeState) :=
  match ts.timestamp_setting with
  | TimestampSetting.Asap => Except.ok (0, ts)
  | TimestampSetting.Replay =>
      let timestamp := decode_timestamp p.bytes ts.timestamp_def
      match ts.system_to_packet_time with
      | none =>
          Except.ok (0, { ts with system_to_packet_time := some (now - timestamp) })
      | some time_offset =>
          let timestamp_sys_time := time_offset + timestamp
          match duration_since timestamp_sys_time now with
          | Except.ok remaining_time => Except.ok (remaining_time, ts)
          | Except.error _ => Except.ok (0, ts)
  | TimestampSetting.Delay d => Except.ok (d, ts)
  | TimestampSetting.Throttle d =>
      match elapsed ts.last_send_time now with
      | Except.error _ => Except.error "SystemTimeError"
      | Except.ok el =>
          match checked_sub d el with
          | some remaining_time => Except.ok (remaining_time, ts)
          | none => Except.ok (0, ts)

/-! ## The processing thread (`src/processing.rs`, `process_thread`) -/

/-- The configuration fields of `AppConfig` that `process_thread` and its
helpers read (`backplane` crate / `src/types.rs`).  `max_length_bytes` is
documented in `src/types.rs` lines 61-63 as "used to filter out malformed
packets when the maximum length is known beforehand". -/
structure AppConfig where
  allowed_output_apids : List (Option (List ℕ))
  max_length_bytes : ℤ
  allowed_input_apids : Option (List ℕ)
  timestamp_setting : TimestampSetting
  timestamp_def : TimestampDef
deriving DecidableEq

/-- The `TimeState` constructed at the top of the `ProcessingState::Processing`
arm of `process_thread` (`src/processing.rs` lines 386-391).  This code runs
on every entry into `Processing` (from `Idle` on `Start` and from `Paused`
on `Continue`); `now` is `SystemTime::now()` at that moment. -/
def init_time_state (cfg : AppConfig) (now : ℚ) : TimeState :=
  { timestamp_setting := cfg.timestamp_setting
    timestamp_def := cfg.timestamp_def
    system_to_packet_time := none
    last_send_time := now }

/-- The outcome that `stream_send` on one output would produce for the
current packet: success, or the error on which the source panics
(`src/stream.rs` lines 400-418 call `unwrap` on the underlying write;
`src/processing.rs` line 465 additionally calls `unwrap` on the call). -/
inductive WriteOutcome
  | ok
  | fail (msg : String)
deriving DecidableEq

/-- The per-output APID admission test of `process_thread`
(`src/processing.rs` lines 456-462): an absent allow-list admits every
packet, a present one admits exactly its members. -/
def apid_allowed (allow : Option (List ℕ)) (apid : ℕ) : Bool :=
  match allow with
  | some apids => apids.contains apid
  | none => true

/-- The output fan-out loop of `process_thread` (`src/processing.rs`
lines 453-467).  `outputs` pairs each output's APID allow-list with the
outcome its write would produce; `idx` is the loop index.  The result is
the list of indices that received the packet, together with `some msg`
when a write failed: the source calls `unwrap` on the failed write, so the
loop (and the whole thread) aborts there and no later output is written. -/
def send_outputs (idx : ℕ) (outputs : List (Option (List ℕ) × WriteOutcome))
    (apid : ℕ) : List ℕ × Option String :=
  match outputs with
  | [] => ([], none)
  | (allow, outcome) :: rest =>
      if apid_allowed allow apid then
        match outcome with
        | WriteOutcome.ok =>
            let r := send_outputs (idx + 1) rest apid
            (idx :: r.1, r.2)
        | WriteOutcome.fail msg => ([], some msg)
      else send_outputs (idx + 1) rest apid

/-- Translation of `GuiMessage` (`src/types.rs` lines 277-283), with
`PacketUpdate` reduced to the fields `process_thread` fills
(`src/processing.rs` lines 470-477). -/
inductive GuiMessage
  | PacketUpdate (apid : ℕ) (packet_length : ℕ) (seq_count : ℕ) (bytes : List ℕ)
  | PacketDropped (header : CcsdsPrimaryHeader)
  | Finished
  | Terminate
  | Error (msg : String)
deriving DecidableEq

/-- The emission phase for one packet in `process_thread`
(`src/processing.rs` lines 452-481): fan the packet out to every output
whose allow-list admits its APID, then send one `PacketUpdate` to the UI.
The result is (indices written, panic message if a write failed, UI
messages sent).  The loop performs no check of `cfg.max_length_bytes`:
the field is read nowhere in `src/processing.rs`.  `packet_length` is
`packet.bytes.len() as u16`, hence reduced modulo 65536. -/
def emit_packet (cfg : AppConfig) (outcomes : List WriteOutcome) (p : Packet) :
    List ℕ × Option String × List GuiMessage :=
  match send_outputs 0 (cfg.allowed_output_apids.zip outcomes) p.header.apid with
  | (writes, some msg) => (writes, some msg, [])
  | (writes, none) =>
      (writes, none,
        [GuiMessage.PacketUpdate p.header.apid (p.bytes.length % 65536)
          p.header.sequence_count p.bytes])

/-- Translation of `PacketMsg` (`src/processing.rs` lines 20-27); the
receive time of a `Packet` message is rational seconds. -/
inductive PacketMsg
  | StreamOpenError
  | ReadError (msg : String)
  | Packet (p : Packet) (recv_time : ℚ)
  | PacketDropped (header : CcsdsPrimaryHeader)
  | StreamParseError
  | StreamEnd
deriving DecidableEq

/-- Result of running the Processing state's packet loop to completion:
either the thread reached `state = Idle` (sending `Finished`, line 513), or
it panicked.  Each constructor carries the UI messages sent, in order. -/
inductive LoopOutcome
  | idle (gui : List GuiMessage)
  | panicked (msg : String) (gui : List GuiMessage)
deriving DecidableEq

/-- Prepend earlier UI messages to a loop outcome. -/
def LoopOutcome.prepend (g : List GuiMessage) : LoopOutcome → LoopOutcome
  | LoopOutcome.idle gs => LoopOutcome.idle (g ++ gs)
  | LoopOutcome.panicked m gs => LoopOutcome.panicked m (g ++ gs)

/-- The packet-message dispatch of the Processing state
(`src/processing.rs` lines 394-513), run over the list of messages read
from the packet channel.  The command channel is quiescent here (each
per-packet wait simply times out), so the timing wait is omitted and each
`Packet` message goes straight to `emit_packet` with the per-output write
outcomes `outcomes`.  Dispatch is literal:

* `Packet` (lines 399-482): emit; a failed write's `unwrap` panics;
* `PacketDropped` (484-486): forward `GuiMessage::PacketDropped`;
* `StreamParseError` (488-491): `panic!`;
* `ReadError` (493-495): send `GuiMessage::Error` and keep processing;
* `StreamOpenError` (497-500): `panic!`;
* `StreamEnd` (502-504): `state = Idle`, leaving the loop, after which
  line 513 sends `Finished`;
* exhausted channel (506-509): `recv` returns `Err` and the source
  panics with it. -/
def processing_loop (cfg : AppConfig) (outcomes : List WriteOutcome) :
    List PacketMsg → LoopOutcome
  | [] => LoopOutcome.panicked "RecvError" []
  | m :: rest =>
      match m with
      | PacketMsg.Packet p _ =>
          match emit_packet cfg outcomes p with
          | (_, some msg, _) => LoopOutcome.panicked msg []
          | (_, none, gui) => (processing_loop cfg outcomes rest).prepend gui
      | PacketMsg.PacketDropped h =>
          (processing_loop cfg outcomes rest).prepend [GuiMessage.PacketDropped h]
      | PacketMsg.StreamParseError =>
          LoopOutcome.panicked
            "There was a unrecoverable parsing error while streaming data!" []
      | PacketMsg.ReadError e =>
          (processing_loop cfg outcomes rest).prepend [GuiMessage.Error e]
      | PacketMsg.StreamOpenError =>
          LoopOutcome.panicked "The packet stream could not be opened!" []
      | PacketMsg.StreamEnd => LoopOutcome.idle [GuiMessage.Finished]

/-! ## The input thread (`src/processing.rs`, `input_stream_thread`) -/

/-- Modelled from the spec: the APID allow-list filter of the CCSDS parser.
The parser implementation (`CcsdsParser::pull_packet` of the
`ccsds_primary_header` crate) is not part of `src/`; per the spec
(section 4.2 step 6 and section 8 property 3), a pulled packet whose APID
is not in `allowed_apids` is discarded and never returned to the caller.
`input_stream_thread` therefore only ever sees the surviving packets. -/
def parser_pull (allowed : Option (List ℕ)) (chunk : List Packet) : List Packet :=
  match allowed with
  | none => chunk
  | some apids => chunk.filter (fun p => apids.contains p.header.apid)

/-- How one loop iteration of `input_stream_thread` ends the processing
loop: a read error (`src/processing.rs` lines 64-67) or the parse-overflow
exit (lines 111-117).  The loop has no other exit. -/
inductive TermStep
  | readErr (e : String)
  | parseOverflow
deriving DecidableEq

/-- The messages sent for one successful read of the input stream
(`src/processing.rs` lines 69-93): one `PacketMsg::Packet` per packet the
parser yields, in order.  `recv_time` stands for the `SystemTime::now()`
captured per packet. -/
def input_chunk_msgs (allowed : Option (List ℕ)) (recv_time : ℚ)
    (chunk : List Packet) : List PacketMsg :=
  (parser_pull allowed chunk).map (fun p => PacketMsg.Packet p recv_time)

/-- The full message trace `input_stream_thread` sends on the packet
channel for one terminating run (`src/processing.rs` lines 45-130).  If
opening the input fails, the thread sends `StreamOpenError` (line 125);
otherwise it loops over reads, each read contributing the packets the
parser pulls (`chunks` lists the raw packets of each read, pre-filter),
until a read error or parse overflow ends the loop.  In every case the
final `packet_sender.send(PacketMsg::StreamEnd)` at line 129 runs last. -/
def input_stream_thread (allowed : Option (List ℕ)) (recv_time : ℚ)
    (open_ok : Bool) (chunks : List (List Packet)) (t : TermStep) :
    List PacketMsg :=
  (if open_ok then
    (chunks.map (input_chunk_msgs allowed recv_time)).flatten ++
      (match t with
       | TermStep.readErr e => [PacketMsg.ReadError e]
       | TermStep.parseOverflow => [PacketMsg.StreamParseError])
  else [PacketMsg.StreamOpenError]) ++ [PacketMsg.StreamEnd]

/-! ## The per-packet command wait (`src/processing.rs` lines 404-450) -/

/-- The recomputation of `remaining_timeout` after each command receive,
translated from `src/processing.rs` line 449:
`SystemTime::now().duration_since(time_to_send).unwrap_or(Duration::from_secs(0))`.
`time_to_send` is the deadline computed at line 404. -/
def remaining_timeout_code (now time_to_send : ℚ) : ℚ :=
  unwrap_or 0 (duration_since now time_to_send)

/-- The value the claim (and the source's own comment at lines 447-448)
prescribes for the remaining timeout: the duration from now to the send
time, zero when the send time is in the past, i.e. max 0 (deadline − now). -/
def remaining_timeout_spec (now time_to_send : ℚ) : ℚ :=
  max 0 (time_to_send - now)

/-! ## Spec-side reading of the timestamp decoder -/

/-- Big-endian integer value of a byte string (most significant first). -/
def bigEndianVal : List ℕ → ℕ
  | [] => 0
  | b :: bs => b * 256 ^ bs.length + bigEndianVal bs

/-- Little-endian integer value of a byte string (least significant first). -/
def littleEndianVal : List ℕ → ℕ
  | [] => 0
  | b :: bs => b + 256 * littleEndianVal bs

/-- The timestamp decoder as the spec describes it, amended only where the
counterexample forces it: the seconds field is the `seconds_size`-byte
integer starting at byte `6 + offset`, the subseconds field follows it,
each read big- or little-endian per the definition; the duration is seconds
plus only the fractional part of subseconds × subsecond_resolution
(truncated to whole nanoseconds); a packet too short for the fields decodes
to zero. -/
def decode_timestamp_spec (bytes : List ℕ) (td : TimestampDef) : ℚ :=
  let start := 6 + td.offset
  let nsec := td.num_bytes_seconds.to_num_bytes
  let nsub := td.num_bytes_subseconds.to_num_bytes
  if bytes.length < start + nsec + nsub then 0
  else
    let secField := (bytes.drop start).take nsec
    let subField := (bytes.drop (start + nsec)).take nsub
    let seconds := if td.is_little_endian then littleEndianVal secField else bigEndianVal secField
    let subseconds := if td.is_little_endian then littleEndianVal subField else bigEndianVal subField
    (seconds : ℚ) +
      duration_from_nanos
        (u64_of_float (1000000000 * rust_fract ((subseconds : ℚ) * td.subsecond_resolution)))



/-! ## Helper lemmas about list reads -/

lemma getD_drop_zero (xs : List ℕ) (s i : ℕ) :
    (xs.drop s).getD i 0 = xs.getD (s + i) 0 := by
  simp [List.getD_eq_getElem?_getD, List.getElem?_drop]

lemma getD_take_lt (xs : List ℕ) (n i : ℕ) (h : i < n) :
    (xs.take n).getD i 0 = xs.getD i 0 := by
  simp [List.getD_eq_getElem?_getD, List.getElem?_take, h]

lemma bigEndianVal_take_one (xs : List ℕ) :
    bigEndianVal (xs.take 1) = get_u8 xs 0 := by
  cases xs <;> simp [bigEndianVal, get_u8]

lemma littleEndianVal_take_one (xs : List ℕ) :
    littleEndianVal (xs.take 1) = get_u8 xs 0 := by
  cases xs <;> simp [littleEndianVal, get_u8]

lemma bigEndianVal_take_two (xs : List ℕ) (h : 2 ≤ xs.length) :
    bigEndianVal (xs.take 2) = get_u16_be xs 0 := by
  match xs, h with
  | a :: b :: t, _ =>
    show a * 256 ^ 1 + (b * 256 ^ 0 + 0) = a * 256 + b
    ring

lemma littleEndianVal_take_two (xs : List ℕ) (h : 2 ≤ xs.length) :
    littleEndianVal (xs.take 2) = get_u16_le xs 0 := by
  match xs, h with
  | a :: b :: t, _ =>
    show a + 256 * (b + 256 * 0) = b * 256 + a
    ring

lemma bigEndianVal_take_four (xs : List ℕ) (h : 4 ≤ xs.length) :
    bigEndianVal (xs.take 4) = get_u32_be xs 0 := by
  match xs, h with
  | a :: b :: c :: d :: t, _ =>
    show a * 256 ^ 3 + (b * 256 ^ 2 + (c * 256 ^ 1 + (d * 256 ^ 0 + 0))) =
        a * 16777216 + b * 65536 + c * 256 + d
    norm_num
    ring

lemma littleEndianVal_take_four (xs : List ℕ) (h : 4 ≤ xs.length) :
    littleEndianVal (xs.take 4) = get_u32_le xs 0 := by
  match xs, h with
  | a :: b :: c :: d :: t, _ =>
    show a + 256 * (b + 256 * (c + 256 * (d + 256 * 0))) =
        d * 16777216 + c * 65536 + b * 256 + a
    ring

lemma cursor_read_zero_eq (xs : List ℕ) (little : Bool) (sz : TimeSize)
    (h : sz.to_num_bytes ≤ xs.length) :
    cursor_read xs 0 little sz =
      if little then littleEndianVal (xs.take sz.to_num_bytes)
      else bigEndianVal (xs.take sz.to_num_bytes) := by
  simp only [TimeSize.to_num_bytes] at h
  cases little
  case false =>
    cases sz
    case ZeroBytes => simp [cursor_read, TimeSize.to_num_bytes, bigEndianVal]
    case OneByte =>
      simp only [cursor_read, TimeSize.to_num_bytes, Bool.false_eq_true, if_false]
      exact (bigEndianVal_take_one xs).symm
    case TwoBytes =>
      simp only [cursor_read, TimeSize.to_num_bytes, Bool.false_eq_true, if_false]
      exact (bigEndianVal_take_two xs h).symm
    case FourBytes =>
      simp only [cursor_read, TimeSize.to_num_bytes, Bool.false_eq_true, if_false]
      exact (bigEndianVal_take_four xs h).symm
  case true =>
    cases sz
    case ZeroBytes => simp [cursor_read, TimeSize.to_num_bytes, littleEndianVal]
    case OneByte =>
      simp only [cursor_read, TimeSize.to_num_bytes, if_true]
      exact (littleEndianVal_take_one xs).symm
    case TwoBytes =>
      simp only [cursor_read, TimeSize.to_num_bytes, if_true]
      exact (littleEndianVal_take_two xs h).symm
    case FourBytes =>
      simp only [cursor_read, TimeSize.to_num_bytes, if_true]
      exact (littleEndianVal_take_four xs h).symm

lemma cursor_read_drop (xs : List ℕ) (p : ℕ) (little : Bool) (sz : TimeSize) :
    cursor_read xs p little sz = cursor_read (xs.drop p) 0 little sz := by
  cases sz <;> cases little <;>
    simp [cursor_read, get_u8, get_u16_be, get_u16_le, get_u32_be, get_u32_le,
      getD_drop_zero]

lemma drop_take_slice (bytes : List ℕ) (s a b : ℕ) :
    ((bytes.drop s).take (a + b)).drop a = (bytes.drop (s + a)).take b := by
  simp [List.drop_take, List.drop_drop]

/-- C7 (amended form): on every input, `decode_timestamp` decodes the
seconds field and the subseconds field as `seconds_size`- and
`subseconds_size`-byte integers starting at byte `6 + offset`, big- or
little-endian per the definition, and returns seconds plus only the
fractional part of subseconds × subsecond_resolution (truncated to whole
nanoseconds); a packet too short for the fields decodes to zero. -/
theorem decode_timestamp_matches_spec (bytes : List ℕ) (td : TimestampDef) :
    decode_timestamp bytes td = decode_timestamp_spec bytes td := by
  simp only [decode_timestamp, decode_timestamp_spec, CCSDS_PRI_HEADER_SIZE_BYTES]
  rw [show 6 + td.offset + (td.num_bytes_seconds.to_num_bytes +
      td.num_bytes_subseconds.to_num_bytes) = 6 + td.offset +
      td.num_bytes_seconds.to_num_bytes + td.num_bytes_subseconds.to_num_bytes from by omega]
  by_cases hlen : bytes.length < 6 + td.offset + td.num_bytes_seconds.to_num_bytes +
      td.num_bytes_subseconds.to_num_bytes
  · rw [if_pos hlen, if_pos hlen]
  · rw [if_neg hlen, if_neg hlen]
    have hdlen : (bytes.drop (6 + td.offset)).length =
        bytes.length - (6 + td.offset) := by simp
    have hslice : ((bytes.drop (6 + td.offset)).take (td.num_bytes_seconds.to_num_bytes +
        td.num_bytes_subseconds.to_num_bytes)).length =
        td.num_bytes_seconds.to_num_bytes + td.num_bytes_subseconds.to_num_bytes := by
      simp only [List.length_take, hdlen]
      omega
    rw [cursor_read_zero_eq _ _ _ (by rw [hslice]; omega)]
    rw [cursor_read_drop, drop_take_slice]
    rw [cursor_read_zero_eq _ _ _ (by simp; omega)]
    rw [List.take_take, min_eq_left (Nat.le_add_right _ _)]
    rw [List.take_take, min_self]

/-- C7 (counterexample): the claim that the decoded duration equals
seconds + subseconds × subsecond_resolution fails on the packet
`[0,0,0,0,0,0,5,2]` with a one-byte seconds field (value 5), a one-byte
subseconds field (value 2) and resolution 1/2 (exact in `f32`): the source
takes `fract` of subseconds × resolution = 1.0, so the whole second it
contributes is discarded and the result is 5, not 5 + 2 × (1/2) = 6. -/
theorem decode_timestamp_drops_whole_subseconds :
    decode_timestamp [0, 0, 0, 0, 0, 0, 5, 2]
        ⟨0, TimeSize.OneByte, TimeSize.OneByte, 1/2, false⟩ = 5 ∧
    decode_timestamp [0, 0, 0, 0, 0, 0, 5, 2]
        ⟨0, TimeSize.OneByte, TimeSize.OneByte, 1/2, false⟩ ≠ (5 : ℚ) + 2 * (1/2) := by
  have h : decode_timestamp [0, 0, 0, 0, 0, 0, 5, 2]
      ⟨0, TimeSize.OneByte, TimeSize.OneByte, 1/2, false⟩ = 5 := by
    norm_num [decode_timestamp, cursor_read, get_u8, get_u16_be, get_u16_le,
      CCSDS_PRI_HEADER_SIZE_BYTES, TimeSize.to_num_bytes, duration_from_nanos,
      u64_of_float, rust_fract, rust_trunc]
  refine ⟨h, ?_⟩
  rw [h]
  norm_num

/-- C3 (failing evaluation): in Throttle mode the source computes
`last_send_time.elapsed().unwrap()`; when the clock has gone backwards
(here now = 3 with last_send_time = 5) `elapsed` is an error and the
`unwrap` panics instead of treating the elapsed time as zero. -/
theorem determine_timeout_throttle_panics :
    determine_timeout 3
        ⟨TimestampSetting.Throttle 1,
         ⟨0, TimeSize.ZeroBytes, TimeSize.ZeroBytes, 0, false⟩, none, 5⟩
        ⟨⟨0, 0⟩, []⟩ = Except.error "SystemTimeError" := by
  norm_num [determine_timeout, elapsed, duration_since]

/-- C5: for timing mode Throttle(d), whenever the clock has not gone
backwards since the last send, `determine_timeout` returns
max 0 (d − (now − last_send_time)) and leaves the time state unchanged. -/
theorem determine_timeout_throttle_eq (now : ℚ) (ts : TimeState) (p : Packet) (d : ℚ)
    (hset : ts.timestamp_setting = TimestampSetting.Throttle d)
    (hclock : ts.last_send_time ≤ now) :
    determine_timeout now ts p =
      Except.ok (max 0 (d - (now - ts.last_send_time)), ts) := by
  simp only [determine_timeout, hset, elapsed, duration_since, if_pos hclock, checked_sub]
  by_cases hrem : now - ts.last_send_time ≤ d
  · rw [if_pos hrem]
    rw [max_eq_right (by linarith : (0 : ℚ) ≤ d - (now - ts.last_send_time))]
  · rw [if_neg hrem]
    rw [max_eq_left (by linarith : d - (now - ts.last_send_time) ≤ 0)]

/-- C5 (witness): the Throttle law evaluated at now = 5,
last_send_time = 4, d = 2: the timeout is max 0 (2 − 1) = 1. -/
theorem determine_timeout_throttle_eq_witness :
    determine_timeout 5
        ⟨TimestampSetting.Throttle 2,
         ⟨0, TimeSize.ZeroBytes, TimeSize.ZeroBytes, 0, false⟩, none, 4⟩
        ⟨⟨0, 0⟩, []⟩ =
      Except.ok (1, ⟨TimestampSetting.Throttle 2,
         ⟨0, TimeSize.ZeroBytes, TimeSize.ZeroBytes, 0, false⟩, none, 4⟩) := by
  have h := determine_timeout_throttle_eq 5
      ⟨TimestampSetting.Throttle 2,
       ⟨0, TimeSize.ZeroBytes, TimeSize.ZeroBytes, 0, false⟩, none, 4⟩
      ⟨⟨0, 0⟩, []⟩ 2 rfl (by norm_num)
  rw [h]
  norm_num

/-- C6: for timing mode Replay, on the first packet of a Processing
session (anchor unset) `determine_timeout` sets the anchor to
now − T (T the decoded packet timestamp) and returns a zero timeout; with
the anchor set it returns max 0 ((anchor + T) − now) and leaves the state
unchanged; and the `TimeState` built on every entry into the Processing
arm (`init_time_state`, `src/processing.rs` lines 386-391) has the anchor
cleared. -/
theorem determine_timeout_replay (now : ℚ) (ts : TimeState) (p : Packet)
    (cfg : AppConfig) (anchor : ℚ) :
    (ts.timestamp_setting = TimestampSetting.Replay →
      ts.system_to_packet_time = none →
      determine_timeout now ts p =
        Except.ok (0, { ts with system_to_packet_time := some (now - decode_timestamp p.bytes ts.timestamp_def) })) ∧
    (ts.timestamp_setting = TimestampSetting.Replay →
      ts.system_to_packet_time = some anchor →
      determine_timeout now ts p = Except.ok
        (max 0 ((anchor + decode_timestamp p.bytes ts.timestamp_def) - now), ts)) ∧
    (init_time_state cfg now).system_to_packet_time = none := by
  refine ⟨?_, ?_, rfl⟩
  · intro hset hanchor
    simp [determine_timeout, hset, hanchor]
  · intro hset hanchor
    simp only [determine_timeout, hset, hanchor, duration_since]
    by_cases h : now ≤ anchor + decode_timestamp p.bytes ts.timestamp_def
    · rw [if_pos h]
      rw [max_eq_right (by linarith :
        (0 : ℚ) ≤ anchor + decode_timestamp p.bytes ts.timestamp_def - now)]
    · rw [if_neg h]
      rw [max_eq_left (by linarith :
        anchor + decode_timestamp p.bytes ts.timestamp_def - now ≤ 0)]

/-- C6 (witness): the anchor-unset Replay case evaluated at now = 7 on an
empty packet (whose decoded timestamp is 0, the timestamp definition
having zero-byte fields): the anchor becomes 7 and the timeout 0. -/
theorem determine_timeout_replay_witness :
    determine_timeout 7
        ⟨TimestampSetting.Replay,
         ⟨0, TimeSize.ZeroBytes, TimeSize.ZeroBytes, 0, false⟩, none, 0⟩
        ⟨⟨0, 0⟩, []⟩ =
      Except.ok (0, ⟨TimestampSetting.Replay,
         ⟨0, TimeSize.ZeroBytes, TimeSize.ZeroBytes, 0, false⟩, some 7, 0⟩) := by
  have h := (determine_timeout_replay 7
      ⟨TimestampSetting.Replay,
       ⟨0, TimeSize.ZeroBytes, TimeSize.ZeroBytes, 0, false⟩, none, 0⟩
      ⟨⟨0, 0⟩, []⟩
      ⟨[], 0, none, TimestampSetting.Asap,
       ⟨0, TimeSize.ZeroBytes, TimeSize.ZeroBytes, 0, false⟩⟩ 0).1 rfl rfl
  rw [h]
  norm_num [decode_timestamp, CCSDS_PRI_HEADER_SIZE_BYTES, TimeSize.to_num_bytes]

/-- C2 (failing evaluation): after the first command receive of a packet
wait, the source recomputes the remaining timeout as
`SystemTime::now().duration_since(time_to_send).unwrap_or(0)`
(`src/processing.rs` line 449) — the duration from the deadline to now —
although its own comment (lines 447-448) and the claim prescribe the
duration from now to the deadline.  Evaluated 2 seconds before the
deadline (now = 8, time_to_send = 10) the code yields 0, so every receive
after the first busy-polls until the deadline, where the claim prescribes
a receive timeout of max 0 (deadline − now) = 2. -/
theorem remaining_timeout_reversed :
    remaining_timeout_code 8 10 = 0 ∧ remaining_timeout_spec 8 10 = 2 := by
  constructor
  · decide
  · norm_num [remaining_timeout_spec]

/-- C1 (failing evaluation): the per-packet emission of `process_thread`
performs no max-length check.  With `max_length_bytes = 7` and an 8-byte
packet, the packet is still written to the single allow-all output
(index 0) and reported to the UI with a `PacketUpdate`; no drop happens
and no `Error` is sent.  `max_length_bytes` is read nowhere in
`src/processing.rs`, although `src/types.rs` lines 61-63 document it as
the packet-length filter. -/
theorem emit_packet_ignores_max_length :
    emit_packet
        ⟨[none], 7, none, TimestampSetting.Asap,
         ⟨0, TimeSize.ZeroBytes, TimeSize.ZeroBytes, 0, false⟩⟩
        [WriteOutcome.ok]
        ⟨⟨3, 0⟩, [24, 3, 192, 0, 0, 1, 222, 173]⟩ =
      ([0], none,
       [GuiMessage.PacketUpdate 3 8 0 [24, 3, 192, 0, 0, 1, 222, 173]]) := by
  decide

/-- C4 (counterexample): a `StreamOpenError` from the input task makes the
Processing state panic (`src/processing.rs` lines 497-500) instead of
reporting the error to the UI and transitioning to Idle. -/
theorem processing_loop_panics_on_open_error :
    processing_loop
        ⟨[none], 65542, none, TimestampSetting.Asap,
         ⟨0, TimeSize.ZeroBytes, TimeSize.ZeroBytes, 0, false⟩⟩
        [WriteOutcome.ok] [PacketMsg.StreamOpenError] =
      LoopOutcome.panicked "The packet stream could not be opened!" [] := by
  decide

/-- C4 (amended): in the Processing state, a `ReadError` is reported to
the UI as `Error` and processing continues (the thread stays in
Processing; Idle is reached only when the input task's subsequent
`StreamEnd` arrives); `StreamParseError` and `StreamOpenError` panic the
thread; `StreamEnd` transitions to Idle, sending `Finished`. -/
theorem processing_loop_error_dispatch (cfg : AppConfig)
    (outcomes : List WriteOutcome) (e : String) (rest : List PacketMsg) :
    processing_loop cfg outcomes (PacketMsg.ReadError e :: rest) =
      (processing_loop cfg outcomes rest).prepend [GuiMessage.Error e] ∧
    processing_loop cfg outcomes (PacketMsg.StreamParseError :: rest) =
      LoopOutcome.panicked
        "There was a unrecoverable parsing error while streaming data!" [] ∧
    processing_loop cfg outcomes (PacketMsg.StreamOpenError :: rest) =
      LoopOutcome.panicked "The packet stream could not be opened!" [] ∧
    processing_loop cfg outcomes (PacketMsg.StreamEnd :: rest) =
      LoopOutcome.idle [GuiMessage.Finished] :=
  ⟨rfl, rfl, rfl, rfl⟩

/-- C10: every terminating run of the input task — open failure, read
error, or parse overflow, over any sequence of successful reads — sends
`PacketMsg::StreamEnd` as its final message on the packet channel
(`src/processing.rs` line 129 runs on every exit path). -/
theorem input_stream_thread_ends_with_stream_end (allowed : Option (List ℕ))
    (recv_time : ℚ) (open_ok : Bool) (chunks : List (List Packet)) (t : TermStep) :
    (input_stream_thread allowed recv_time open_ok chunks t).getLast? =
      some PacketMsg.StreamEnd := by
  simp [input_stream_thread, List.getLast?_concat]

/-- C8 (counterexample): a run whose single read yields one packet with
APID 3 while the input allow-list is {5}: the packet is dropped by the
parser filter, yet the input task's message trace is just
`[ReadError "eof", StreamEnd]` — it contains no `PacketDropped` message at
all, contradicting "exactly one `PacketDropped` per dropped packet". -/
theorem input_stream_thread_silent_drop :
    apid_allowed (some [5]) 3 = false ∧
    input_stream_thread (some [5]) 0 true [[⟨⟨3, 0⟩, []⟩]]
        (TermStep.readErr "eof") =
      [PacketMsg.ReadError "eof", PacketMsg.StreamEnd] := by
  constructor
  · decide
  · decide

/-- C8 (amended): packets dropped by the input-side APID allow-list are
discarded silently — the input task never sends `PacketMsg::PacketDropped`
on any run (the variant is never constructed in `input_stream_thread`) —
while the processor does forward any `PacketDropped` message it receives
to the UI as a `PacketDropped` event. -/
theorem packet_dropped_never_sent_but_forwarded :
    (∀ (allowed : Option (List ℕ)) (recv_time : ℚ) (open_ok : Bool)
        (chunks : List (List Packet)) (t : TermStep) (h : CcsdsPrimaryHeader),
        PacketMsg.PacketDropped h ∉
          input_stream_thread allowed recv_time open_ok chunks t) ∧
    (∀ (cfg : AppConfig) (outcomes : List WriteOutcome)
        (h : CcsdsPrimaryHeader) (rest : List PacketMsg),
        processing_loop cfg outcomes (PacketMsg.PacketDropped h :: rest) =
          (processing_loop cfg outcomes rest).prepend
            [GuiMessage.PacketDropped h]) := by
  constructor
  · intro allowed recv_time open_ok chunks t h
    cases open_ok <;> cases t <;>
      simp [input_stream_thread, input_chunk_msgs]
  · intro cfg outcomes h rest
    rfl

/-- C8 (witness): the no-`PacketDropped` half applied to the concrete
dropped-packet run used in the counterexample. -/
theorem packet_dropped_never_sent_witness :
    PacketMsg.PacketDropped ⟨3, 0⟩ ∉
      input_stream_thread (some [5]) 0 true [[⟨⟨3, 0⟩, []⟩]]
        (TermStep.readErr "eof") :=
  packet_dropped_never_sent_but_forwarded.1 (some [5]) 0 true
    [[⟨⟨3, 0⟩, []⟩]] (TermStep.readErr "eof") ⟨3, 0⟩

/-- C9 (counterexample): two outputs, both allow-all; the write to
output 0 fails while output 1 would succeed.  The fan-out aborts with a
panic: output 1 receives nothing, no `PacketUpdate` (and no `Error`) is
sent to the UI — contradicting "a write failure on one output is reported
and does not abort the others". -/
theorem write_failure_panics_and_skips_rest :
    emit_packet
        ⟨[none, none], 65542, none, TimestampSetting.Asap,
         ⟨0, TimeSize.ZeroBytes, TimeSize.ZeroBytes, 0, false⟩⟩
        [WriteOutcome.fail "write failed", WriteOutcome.ok]
        ⟨⟨3, 0⟩, [1, 2, 3]⟩ =
      ([], some "write failed", []) := by
  decide

/-- C9 (amended): the output fan-out writes to the allowed outputs in
index order; if every allowed output's write succeeds there is no panic,
and a failing write on an allowed output panics the processing thread with
that write's error, no output at or after the failing index receiving the
packet. -/
theorem send_outputs_aborts_on_failure :
    (∀ (idx : ℕ) (outs : List (Option (List ℕ) × WriteOutcome)) (apid : ℕ),
      (∀ x ∈ outs, apid_allowed x.1 apid = true → x.2 = WriteOutcome.ok) →
      (send_outputs idx outs apid).2 = none) ∧
    (∀ (idx : ℕ) (pre post : List (Option (List ℕ) × WriteOutcome))
        (allow : Option (List ℕ)) (msg : String) (apid : ℕ),
      apid_allowed allow apid = true →
      (∀ x ∈ pre, apid_allowed x.1 apid = true → x.2 = WriteOutcome.ok) →
      (send_outputs idx (pre ++ (allow, WriteOutcome.fail msg) :: post) apid).2 =
        some msg ∧
      ∀ j ∈ (send_outputs idx (pre ++ (allow, WriteOutcome.fail msg) :: post) apid).1,
        j < idx + pre.length) := by
  constructor
  · intro idx outs apid hok
    induction outs generalizing idx with
    | nil => rfl
    | cons x rest ih =>
        obtain ⟨allow, outcome⟩ := x
        by_cases hall : apid_allowed allow apid = true
        · have hx := hok (allow, outcome) (by simp) hall
          simp only at hx
          subst hx
          simp only [send_outputs, hall, if_true]
          exact ih (idx + 1) (fun x hx hax => hok x (by simp [hx]) hax)
        · simp only [send_outputs, hall, if_false]
          exact ih (idx + 1) (fun x hx hax => hok x (by simp [hx]) hax)
  · intro idx pre post allow msg apid hall hok
    induction pre generalizing idx with
    | nil =>
        constructor
        · simp [send_outputs, hall]
        · intro j hj
          simp [send_outputs, hall] at hj
    | cons x rest ih =>
        obtain ⟨allow0, outcome0⟩ := x
        have hrec := ih (idx + 1) (fun x hx hax => hok x (by simp [hx]) hax)
        by_cases hall0 : apid_allowed allow0 apid = true
        · have hx := hok (allow0, outcome0) (by simp) hall0
          simp only at hx
          subst hx
          simp only [List.cons_append, send_outputs, hall0, if_true]
          refine ⟨hrec.1, ?_⟩
          intro j hj
          simp only [List.mem_cons] at hj
          rcases hj with hj | hj
          · subst hj
            simp only [List.length_cons]
            omega
          · have := hrec.2 j hj
            simp only [List.length_cons]
            omega
        · simp only [List.cons_append, send_outputs, hall0, if_false]
          refine ⟨hrec.1, ?_⟩
          intro j hj
          have := hrec.2 j hj
          simp only [List.length_cons]
          omega

/-- C9 (witness): the failure half of the fan-out law applied to three
allow-all outputs whose middle write fails: the fan-out panics with that
error and only indices before 1 can have been written. -/
theorem send_outputs_aborts_witness :
    (send_outputs 0
        ([(none, WriteOutcome.ok)] ++
          (none, WriteOutcome.fail "boom") :: [(none, WriteOutcome.ok)]) 3).2 =
      some "boom" ∧
    ∀ j ∈ (send_outputs 0
        ([(none, WriteOutcome.ok)] ++
          (none, WriteOutcome.fail "boom") :: [(none, WriteOutcome.ok)]) 3).1,
      j < 0 + 1 := by
  have h := send_outputs_aborts_on_failure.2 0 [(none, WriteOutcome.ok)]
      [(none, WriteOutcome.ok)] none "boom" 3 rfl (by decide)
  simpa using h

end CcsdsRouter

